import Mathlib

/-!
Verification development for the dexterlab repository: a shallow embedding of
the topology resolution and rendering engine (validator, `Dlab` resolver,
entity model and the text-tree formatter), with theorems settling the
behavioural claims about it.

Sources embedded:
- `src/dexterlab/types/basic.py` (hash_string, ConnectorCategory, DlabLink,
  DlabNode, DlabItem, DlabInstrument, DlabConnector)
- `src/dexterlab/types/default.py` (Dlab resolution pipeline)
- `src/dexterlab/validation/validator.py` (SCHEMA, validate_lab_definition)
- `src/dexterlab/mappers/formatter/string_map.py` (StringFormatter)

Python machine-level details are made explicit: md5 is implemented over the
UTF-8 bytes of the input with all words reduced mod 2^32; raising an
exception (assert / raise) is an `Except.error` carrying the message.
-/

/-! ### hash_string (basic.py lines 8-10)

`hash_string` is `hashlib.md5(str_in.encode()).hexdigest()` under a
`functools.cache` decorator; the cache is pure memoization and has no
semantic content, so the embedding is md5 over the UTF-8 encoding.
The md5 implementation below follows RFC 1321 with Nat arithmetic
reduced mod 2^32 explicitly. -/

namespace Md5

def K : List Nat := [3614090360, 3905402710, 606105819, 3250441966,
  4118548399, 1200080426, 2821735955, 4249261313, 1770035416, 2336552879,
  4294925233, 2304563134, 1804603682, 4254626195, 2792965006, 1236535329,
  4129170786, 3225465664, 643717713, 3921069994, 3593408605, 38016083,
  3634488961, 3889429448, 568446438, 3275163606, 4107603335, 1163531501,
  2850285829, 4243563512, 1735328473, 2368359562, 4294588738, 2272392833,
  1839030562, 4259657740, 2763975236, 1272893353, 4139469664, 3200236656,
  681279174, 3936430074, 3572445317, 76029189, 3654602809, 3873151461,
  530742520, 3299628645, 4096336452, 1126891415, 2878612391, 4237533241,
  1700485571, 2399980690, 4293915773, 2240044497, 1873313359, 4264355552,
  2734768916, 1309151649, 4149444226, 3174756917, 718787259, 3951481745]

def S : List Nat := [7, 12, 17, 22, 7, 12, 17, 22, 7, 12, 17, 22, 7, 12,
  17, 22, 5, 9, 14, 20, 5, 9, 14, 20, 5, 9, 14, 20, 5, 9, 14, 20, 4, 11,
  16, 23, 4, 11, 16, 23, 4, 11, 16, 23, 4, 11, 16, 23, 6, 10, 15, 21, 6,
  10, 15, 21, 6, 10, 15, 21, 6, 10, 15, 21]

def mask32 : Nat := 4294967295

def add32 (a b : Nat) : Nat := (a + b) % 4294967296

def not32 (x : Nat) : Nat := x ^^^ mask32

def rotl32 (x c : Nat) : Nat := ((x <<< c) % 4294967296) ||| (x >>> (32 - c))

/-- One of the 64 md5 operations, acting on the running (a, b, c, d) state;
`M` is the current 16-word block. -/
def md5Step (M : List Nat) (st : Nat × Nat × Nat × Nat) (i : Nat) :
    Nat × Nat × Nat × Nat :=
  let (a, b, c, d) := st
  let f :=
    if i < 16 then (b &&& c) ||| (not32 b &&& d)
    else if i < 32 then (d &&& b) ||| (not32 d &&& c)
    else if i < 48 then b ^^^ c ^^^ d
    else c ^^^ (b ||| not32 d)
  let g :=
    if i < 16 then i
    else if i < 32 then (5 * i + 1) % 16
    else if i < 48 then (3 * i + 5) % 16
    else (7 * i) % 16
  let x := add32 (add32 (add32 a f) (K.getD i 0)) (M.getD g 0)
  (d, add32 b (rotl32 x (S.getD i 0)), b, c)

def processBlock (st : Nat × Nat × Nat × Nat) (M : List Nat) :
    Nat × Nat × Nat × Nat :=
  let (a0, b0, c0, d0) := st
  let (a, b, c, d) := (List.range 64).foldl (md5Step M) (a0, b0, c0, d0)
  (add32 a0 a, add32 b0 b, add32 c0 c, add32 d0 d)

/-- Little-endian serialization of `n` on `k` bytes. -/
def leBytes (k n : Nat) : List Nat := (List.range k).map fun i => (n >>> (8 * i)) % 256

/-- Group a byte list into little-endian 32-bit words (the padded input
length is always a multiple of 4). -/
def words32 : List Nat → List Nat
  | b0 :: b1 :: b2 :: b3 :: rest =>
      (b0 + 256 * b1 + 65536 * b2 + 16777216 * b3) :: words32 rest
  | _ => []

/-- Group a word list into 16-word blocks. -/
def blocks16 (l : List Nat) : List (List Nat) :=
  if h : l = [] then []
  else (l.take 16) :: blocks16 (l.drop 16)
termination_by l.length
decreasing_by
  simp only [List.length_drop]
  exact Nat.sub_lt (List.length_pos.mpr h) (by norm_num)

/-- RFC 1321 padding: a 1 bit, zeros to 56 mod 64 bytes, then the bit
length on 8 little-endian bytes (mod 2^64). -/
def padMsg (msg : List Nat) : List Nat :=
  msg ++ [128] ++ List.replicate ((119 - msg.length % 64) % 64) 0
    ++ leBytes 8 ((msg.length * 8) % 18446744073709551616)

def md5Bytes (msg : List Nat) : List Nat :=
  let blocks := blocks16 (words32 (padMsg msg))
  let (a, b, c, d) :=
    blocks.foldl processBlock (1732584193, 4023233417, 2562383102, 271733878)
  leBytes 4 a ++ leBytes 4 b ++ leBytes 4 c ++ leBytes 4 d

def hexChar (n : Nat) : Char :=
  if n < 10 then Char.ofNat (48 + n) else Char.ofNat (87 + n)

def md5HexOfBytes (msg : List Nat) : String :=
  String.mk ((md5Bytes msg).flatMap fun b => [hexChar (b / 16), hexChar (b % 16)])

/-- UTF-8 encoding of one Unicode scalar value. -/
def utf8Char (c : Nat) : List Nat :=
  if c < 128 then [c]
  else if c < 2048 then [192 + c / 64, 128 + c % 64]
  else if c < 65536 then [224 + c / 4096, 128 + c / 64 % 64, 128 + c % 64]
  else [240 + c / 262144, 128 + c / 4096 % 64, 128 + c / 64 % 64, 128 + c % 64]

/-- `str.encode()`: UTF-8 bytes of a string. -/
def utf8Bytes (s : String) : List Nat := s.data.flatMap fun ch => utf8Char ch.toNat

end Md5

/-- `hash_string` (basic.py): md5 hexdigest of the UTF-8 encoding of the
input string. -/
def hash_string (str_in : String) : String :=
  Md5.md5HexOfBytes (Md5.utf8Bytes str_in)

/-! ### Entity model (basic.py) -/

/-- `ConnectorCategory` (basic.py lines 13-17). -/
inductive ConnectorCategory
  | POWER
  | DATAX
  | DATAW
  | DATAR
deriving DecidableEq, Repr

/-- `Enum.name`: the member name of a `ConnectorCategory` value. -/
def ConnectorCategory.name : ConnectorCategory → String
  | .POWER => "POWER"
  | .DATAX => "DATAX"
  | .DATAW => "DATAW"
  | .DATAR => "DATAR"

/-- A Python value stored by `DlabLink.resolve_nodes` (typed `Any` in the
source); `get_nodes` only distinguishes strings from non-strings. -/
inductive PyVal
  | str (s : String)
  | other
deriving DecidableEq, Repr

/-- Truthiness of an optional Python value (`if emitter:`): absent and the
empty string are falsy; other objects are truthy by default. -/
def pyTruthy : Option PyVal → Bool
  | none => false
  | some (.str s) => !(s == "")
  | some .other => true

/-- A fully constructed instrument entity: `DlabInstrument`, which mixes
`DlabNode` (name) and `DlabItem` (sn, pn, description, group), plus the
concrete class's qualified name (`__class__.__qualname__`, used by the
formatters).  `description` and `group` default to Python `None`, embedded
as `Option`. -/
structure DlabInstrument where
  className : String
  name : String
  sn : String
  pn : String
  description : Option String := none
  group : Option String := none
deriving DecidableEq, Repr

/-- A fully constructed link entity: `DlabLink` mixed with `DlabItem`
(`DlabConnector`).  `start_node` / `end_node` are the public attributes set
to `None` by `__init__` (lines 44-45) and assigned by the resolver's linking
pass; `emitter` / `receiver` model the name-mangled `__emitter` /
`__receiver` attributes, where `none` means the attribute was never
assigned (the constructor does not set them; only `resolve_nodes` does). -/
structure DlabLink where
  className : String
  name : String
  start_node_name : String
  end_node_name : String
  start_node_port : String
  end_node_port : String
  category : ConnectorCategory
  manual_only : Bool := false
  autoconnect : Bool := true
  start_node : Option DlabInstrument := none
  end_node : Option DlabInstrument := none
  emitter : Option PyVal := none
  receiver : Option PyVal := none
  sn : String
  pn : String
  description : Option String := none
  group : Option String := none
deriving DecidableEq, Repr

/-- `DlabLink.type` property: the category's member name. -/
def DlabLink.type (l : DlabLink) : String := l.category.name

/-- `DlabLink.get_nodes` (basic.py lines 54-57): reads `self.__emitter` and
`self.__receiver`; accessing an attribute that was never assigned raises
`AttributeError` (embedded as `Except.error`). For assigned attributes the
`isinstance(..., str)` test maps non-strings to `None`. -/
def DlabLink.get_nodes (l : DlabLink) :
    Except String (Option String × Option String) :=
  match l.emitter with
  | none => .error "AttributeError: _DlabLink__emitter"
  | some ev =>
    match l.receiver with
    | none => .error "AttributeError: _DlabLink__receiver"
    | some rv =>
      .ok (match ev with | .str s => some s | .other => none,
           match rv with | .str s => some s | .other => none)

/-- `DlabLink.resolve_nodes` (basic.py lines 59-63): assigns `__emitter` /
`__receiver` only when the argument is truthy. -/
def DlabLink.resolve_nodes (l : DlabLink)
    (emitter receiver : Option PyVal) : DlabLink :=
  { l with
    emitter := if pyTruthy emitter then emitter else l.emitter,
    receiver := if pyTruthy receiver then receiver else l.receiver }

/-- `DlabInstrument.uid` (basic.py lines 192-193). -/
def DlabInstrument.uid (i : DlabInstrument) : String :=
  hash_string (i.name ++ i.sn)

/-- `DlabConnector.uid` (basic.py lines 204-205); `serial_number` is the
`sn` field of the `DlabItem` mixin. -/
def DlabLink.uid (l : DlabLink) : String :=
  hash_string (l.name ++ l.sn)

/-! ### Raw definition entries (the validated YAML dictionary) -/

/-- The field mapping of one declared item, per the `items` schema in
validator.py: required `name`, `pn`, `sn`; optional `description`,
`group`. -/
structure ItemFields where
  name : String
  pn : String
  sn : String
  description : Option String := none
  group : Option String := none
deriving DecidableEq, Repr

/-- One entry of the `items` list: a single-key mapping from a class name
to the item's fields (`next(iter(item))` selects the key). -/
structure RawItem where
  className : String
  fields : ItemFields
deriving DecidableEq, Repr

/-- One entry of the `connections` list, per the `connections` schema in
validator.py.  `end` is a Lean keyword, embedded as `end_`.  Validation
restricts `category` to the `ConnectorCategory` member names, so the
embedding stores the member itself (`ConnectorCategory[category]` in
`DlabLink.__init__` is total on validated input). -/
structure ConnEntry where
  item_connector : String
  start : String
  end_ : String
  start_port : String
  end_port : String
  category : ConnectorCategory
  autoconnect : Bool := true
  manual_only : Bool := false
deriving DecidableEq, Repr

/-- The validated lab definition as unpacked by `Dlab.__init__`
(default.py lines 87-97): `name`, `description`, `environment`,
`location`, plus the `items` and `connections` lists. -/
structure LabDef where
  name : String
  description : String
  environment : List (String × String)
  location : String
  items : List RawItem
  connections : List ConnEntry
deriving DecidableEq, Repr

/-! ### Class registry (default.py) -/

/-- What the resolver does with a registered class: `__resolve_items`
branches on `issubclass(item_class, DlabNode)` versus
`issubclass(item_class, DlabLink)`. -/
inductive DlabClassKind
  | node
  | link
deriving DecidableEq, Repr

/-- A registered class as the resolver observes it: which capability
branch it takes, and whether the Python class is abstract — an ABC that
still carries `@abstractmethod` members, which `ABCMeta` refuses to
instantiate, so calling the class raises `TypeError` before `__init__`
runs. -/
structure DlabClass where
  kind : DlabClassKind
  abstract : Bool
deriving DecidableEq, Repr

/-- A class registry: a mapping from public class name to the registered
type, as produced by `Dlab.__get_classes` or passed in via the `classes`
override. -/
abbrev ClassRegistry := List (String × DlabClass)

/-- `Dlab.__get_classes` on the classes defined in default.py:
`DlabInstrument.__subclasses__()` yields `GenericInstrument` (concrete)
and `CalibratedInstrument` — abstract: it re-declares all four lifecycle
methods as `@abstractmethod` (default.py lines 37-51), so instantiating
it raises `TypeError` (its required `calibration_date` argument is not in
the item schema either); `DlabConnector.__subclasses__()` yields `Cable`
(concrete). -/
def defaultClasses : ClassRegistry :=
  [("GenericInstrument", { kind := .node, abstract := false }),
   ("CalibratedInstrument", { kind := .node, abstract := true }),
   ("Cable", { kind := .link, abstract := false })]

/-- Whether resolving `nm` through the registry yields a class whose
instantiation succeeds: registered, and not abstract. -/
def constructible (classes : ClassRegistry) (nm : String) : Bool :=
  match List.lookup nm classes with
  | some cls => !cls.abstract
  | none => false

/-- Constructing a node-capable item: `item_class(**item_value)`
(default.py line 210), forwarding the item fields through
`DlabNode.__init__` and `DlabItem.__init__`. -/
def mkInstrument (it : RawItem) : DlabInstrument :=
  { className := it.className, name := it.fields.name, sn := it.fields.sn,
    pn := it.fields.pn, description := it.fields.description,
    group := it.fields.group }

/-- Constructing a link-capable item: `item_class(**{**item_value,
**cnt_dict})` (default.py line 215).  The item fields (`name`, `pn`, `sn`,
`description`, `group`) and the connection-entry fields (`start`, `end`,
`start_port`, `end_port`, `category`, `autoconnect`, `manual_only`, after
deleting `item_connector`) have disjoint keys, so the merge is their
union; `DlabLink.__init__` leaves `start_node`/`end_node` as `None` and
never assigns `__emitter`/`__receiver`. -/
def mkLink (it : RawItem) (e : ConnEntry) : DlabLink :=
  { className := it.className, name := it.fields.name,
    start_node_name := e.start, end_node_name := e.end_,
    start_node_port := e.start_port, end_node_port := e.end_port,
    category := e.category, manual_only := e.manual_only,
    autoconnect := e.autoconnect, start_node := none, end_node := none,
    emitter := none, receiver := none, sn := it.fields.sn,
    pn := it.fields.pn, description := it.fields.description,
    group := it.fields.group }

/-! ### Resolution pipeline (default.py, class Dlab) -/

/-- The `(start, end, start_port, end_port)` tuple of a connection entry,
in the order of `Dlab.NODE_KEYS`. -/
def connTuple (e : ConnEntry) : String × String × String × String :=
  (e.start, e.end_, e.start_port, e.end_port)

/-- `Dlab.__check_connections` (default.py lines 178-182): the set of
`(start, end, start_port, end_port)` tuples must have the same cardinality
as the connections list; the set's cardinality is the number of distinct
tuples, i.e. the length after `dedup`.  Returns the truth of the
`assert`. -/
def check_connections (connections : List ConnEntry) : Bool :=
  ((connections.map connTuple).dedup).length == connections.length

/-- `Dlab.__get_connection` (default.py lines 191-198): find the first
entry whose `item_connector` equals `conn_name`, pop it from the list and
return it together with the remaining list, or fail.  (`del
res[self.CONNECTOR_BINDER_KEY]` only removes the binder key before the
kwargs merge; the entry's other fields are unchanged.) -/
def get_connection (conn_name : String) :
    List ConnEntry → Option (ConnEntry × List ConnEntry)
  | [] => none
  | x :: xs =>
    if x.item_connector == conn_name then some (x, xs)
    else
      match get_connection conn_name xs with
      | none => none
      | some (r, rest) => some (r, x :: rest)

/-- `Dlab.__resolve_items` (default.py lines 200-215): walk the declared
items in order; resolve each class name through the registry (the failed
`assert` raises with the offending name); node-capable classes are
instantiated (`item_class(**item_value)`, line 210) and appended to the
nodes; link-capable classes first consume their matching connection entry
(`__get_connection` raising if there is none, line 212) and are then
instantiated (line 215) and appended to the links.  Calling an abstract
class raises `TypeError` (the interpreter's message, which also lists the
abstract method names, is abbreviated here) at the instantiation point —
for nodes before anything is appended, for links after the entry was
popped.  Returns the nodes, the links and the leftover (unconsumed)
connection entries. -/
def resolve_items (classes : ClassRegistry) :
    List RawItem → List ConnEntry →
    Except String (List DlabInstrument × List DlabLink × List ConnEntry)
  | [], conns => .ok ([], [], conns)
  | it :: rest, conns =>
    match List.lookup it.className classes with
    | none =>
      .error ("Error: <" ++ it.className ++
        "> is not a valid virtual laboratory class")
    | some cls =>
      match cls.kind with
      | .node =>
        if cls.abstract then
          .error ("TypeError: Can't instantiate abstract class " ++
            it.className)
        else
          match resolve_items classes rest conns with
          | .error e => .error e
          | .ok (ns, ls, cs) => .ok (mkInstrument it :: ns, ls, cs)
      | .link =>
        match get_connection it.fields.name conns with
        | none =>
          .error ("Error: connection definition is missing for <" ++
            it.fields.name ++ ">")
        | some (e, conns2) =>
          if cls.abstract then
            .error ("TypeError: Can't instantiate abstract class " ++
              it.className)
          else
            match resolve_items classes rest conns2 with
            | .error e2 => .error e2
            | .ok (ns, ls, cs) => .ok (ns, mkLink it e :: ls, cs)

/-- The constructor-failure path is kept: a definition declaring the
registered-but-abstract `CalibratedInstrument` makes `__resolve_items`
raise `TypeError` instead of resolving. -/
lemma resolve_items_abstract_class_raises :
    resolve_items defaultClasses
      [{ className := "CalibratedInstrument",
         fields := { name := "ci", pn := "P0", sn := "S0" } }] [] =
      .error "TypeError: Can't instantiate abstract class CalibratedInstrument" :=
  rfl

/-- `Dlab.__get_node` (default.py lines 184-189): linear search of the
resolved nodes by exact name, raising when no node matches. -/
def get_node (nodes : List DlabInstrument) (node_name : String) :
    Except String DlabInstrument :=
  match nodes.find? (fun item => item.name == node_name) with
  | some item => .ok item
  | none => .error ("Error: laboratory item not found <" ++ node_name ++ ">")

/-- `Dlab.__update_node_topolgy` (default.py lines 217-223, source
spelling kept): for every resolved link, look up the start and end node by
name and store the resolved references on the link's `start_node` /
`end_node` attributes. -/
def update_node_topolgy (nodes : List DlabInstrument) :
    List DlabLink → Except String (List DlabLink)
  | [] => .ok []
  | l :: ls =>
    match get_node nodes l.start_node_name with
    | .error e => .error e
    | .ok s =>
      match get_node nodes l.end_node_name with
      | .error e => .error e
      | .ok t =>
        match update_node_topolgy nodes ls with
        | .error e => .error e
        | .ok ls2 => .ok ({ l with start_node := some s, end_node := some t } :: ls2)

/-- The resolved topology held by a `Dlab` instance: `self.__nodes`
(exposed as `items`) and `self.__links` (exposed as `connections`). -/
structure DlabState where
  nodes : List DlabInstrument
  links : List DlabLink
deriving DecidableEq, Repr

/-- The resolution pipeline of `Dlab.__init__` after unpacking the
validated definition (default.py lines 97-116, in source order):
`__check_connections` on the raw connection entries (before any class is
resolved or entity constructed), then `__resolve_items`, then
`__update_node_topolgy`.  A failed Python `assert`/`raise` is
`Except.error` with its message, aborting the construction. -/
def dlabResolve (classes : ClassRegistry) (lab : LabDef) :
    Except String DlabState :=
  if check_connections lab.connections then
    match resolve_items classes lab.items lab.connections with
    | .error e => .error e
    | .ok (ns, ls, _) =>
      match update_node_topolgy ns ls with
      | .error e => .error e
      | .ok ls2 => .ok { nodes := ns, links := ls2 }
  else
    .error "Error: multiple definitions found for the same connection. Check the connection ports and items."

/-- The names of the link-capable declared items, in declaration order. -/
def linkNames (classes : ClassRegistry) (items : List RawItem) : List String :=
  items.filterMap fun it =>
    match List.lookup it.className classes with
    | some cls =>
      match cls.kind with
      | .link => some it.fields.name
      | .node => none
    | none => none

/-- The node entities produced from the declared items, in declaration
order. -/
def nodesOf (classes : ClassRegistry) (items : List RawItem) :
    List DlabInstrument :=
  items.filterMap fun it =>
    match List.lookup it.className classes with
    | some cls =>
      match cls.kind with
      | .node => some (mkInstrument it)
      | .link => none
    | none => none

/-! ### Validation (validation/validator.py)

`validate_lab_definition` runs a cerberus `Validator` over `SCHEMA`.
`SCHEMA` declares five required top-level keys — `name`, `description`,
`environment`, `items`, `connections` — and no entry for `location`.  With
cerberus defaults (`allow_unknown = False`) a missing required key yields a
`required field` error and a document key absent from the schema yields an
`unknown field` error; `validate` returns `False` iff the error list is
non-empty.  The nested shapes of the `items` and `connections` entries are
enforced in this embedding by the types of `RawItem` and `ConnEntry`, so
the validator is embedded at the top-level-key granularity the schema
adds beyond those types. -/

/-- A raw definition document before validation: each top-level key of
interest is present (`some`) or absent (`none`). -/
structure RawLab where
  name : Option String := none
  description : Option String := none
  environment : Option (List (String × String)) := none
  location : Option String := none
  items : Option (List RawItem) := none
  connections : Option (List ConnEntry) := none

/-- `validate_lab_definition` (validator.py lines 52-54): the validation
verdict together with the structured list of field-level violations. -/
def validate_lab_definition (labdef : RawLab) : Bool × List String :=
  let errs : List String :=
    (if labdef.name.isNone then ["name: required field"] else []) ++
    (if labdef.description.isNone then ["description: required field"] else []) ++
    (if labdef.environment.isNone then ["environment: required field"] else []) ++
    (if labdef.items.isNone then ["items: required field"] else []) ++
    (if labdef.connections.isNone then ["connections: required field"] else []) ++
    (if labdef.location.isSome then ["location: unknown field"] else [])
  (errs.isEmpty, errs)

/-! ### Text-tree formatter (mappers/formatter/string_map.py) -/

/-- `CONNECTION_MAP` (string_map.py lines 9-14): arrow glyph keyed by the
`ConnectorCategory` member name. -/
def CONNECTION_MAP : List (String × String) :=
  [(ConnectorCategory.POWER.name, "---"),
   (ConnectorCategory.DATAR.name, "<--"),
   (ConnectorCategory.DATAW.name, "-->"),
   (ConnectorCategory.DATAX.name, "<->")]

/-- Python `str(x)` on an optional string: `None` prints as `"None"`
(`.format` stringifies its arguments). -/
def pyStr : Option String → String
  | none => "None"
  | some s => s

/-- Python format spec `{key:<15}`: left-align, pad with spaces to a
minimum width of 15. -/
def formatPad15 (s : String) : String :=
  if s.length < 15 then s ++ String.mk (List.replicate (15 - s.length) ' ')
  else s

/-- `StringFormatter.ROW_SKELETON` instantiated:
`"\n{pipes}|-- {key:<15} : {val}"`. -/
def ROW_SKELETON (pipes key val : String) : String :=
  "\n" ++ pipes ++ "|-- " ++ formatPad15 key ++ " : " ++ val

/-- The 44-tilde separator line of `DOC_SKELETON`. -/
def docRule : String := String.mk (List.replicate 44 '~')

/-- The 36-tilde header of `ELEM_SKELETON` / `CONN_SKELETON`. -/
def elemRule : String := "|   |   " ++ String.mk (List.replicate 36 '~')

/-- `StringFormatter.ELEM_SKELETON` instantiated. -/
def ELEM_SKELETON (item_type item_name descr rows : String) : String :=
  elemRule ++ "\n|   |-- <<" ++ item_type ++ ">>: " ++ item_name ++
  "\n|   |   " ++ descr ++ rows ++ "\n|   |\n"

/-- `StringFormatter.CONN_SKELETON` instantiated. -/
def CONN_SKELETON (conn_type conn_name start start_port arrow end_ end_port :
    String) : String :=
  elemRule ++ "\n|   |-- <<" ++ conn_type ++ ">>: " ++ conn_name ++
  "\n|   |   " ++ start ++ " [" ++ start_port ++ "] " ++ arrow ++ " " ++
  end_ ++ " [" ++ end_port ++ "]\n|   |\n"

/-- `StringFormatter.DOC_SKELETON` instantiated. -/
def DOC_SKELETON (labname location descr environment items connections :
    String) : String :=
  "\n" ++ docRule ++ "\nLABORATORY: " ++ labname ++ "\nLocation: " ++
  location ++ "\n" ++ descr ++ "\n" ++ docRule ++
  "\n|-- Required Environment" ++ environment ++ "\n" ++ docRule ++
  "\n|-- Laboratory Items\n" ++ items ++ docRule ++
  "\n|-- Laboratory Connections\n" ++ connections ++ docRule ++ "\n"

/-- The accumulated state of a `StringFormatter` instance: the two string
buffers initialized empty by `__init__` (string_map.py lines 49-53). -/
structure StringFormatter where
  items : String := ""
  connections : String := ""
deriving DecidableEq, Repr

/-- An entity streamed into the formatters by `Dlab.__update_formatters`:
either a resolved instrument or a resolved link (both are `DlabItem`s). -/
inductive DlabEntity
  | instr (i : DlabInstrument)
  | link (l : DlabLink)
deriving DecidableEq, Repr

def DlabEntity.className : DlabEntity → String
  | .instr i => i.className
  | .link l => l.className

def DlabEntity.name : DlabEntity → String
  | .instr i => i.name
  | .link l => l.name

def DlabEntity.part_number : DlabEntity → String
  | .instr i => i.pn
  | .link l => l.pn

def DlabEntity.serial_number : DlabEntity → String
  | .instr i => i.sn
  | .link l => l.sn

def DlabEntity.description : DlabEntity → Option String
  | .instr i => i.description
  | .link l => l.description

/-- `StringFormatter.add_item` (string_map.py lines 55-69): append the
element block (class name, item name, description, Part Number and Serial
Number rows with two pipe columns) to the `items` buffer. -/
def StringFormatter.add_item (fmt : StringFormatter) (item : DlabEntity) :
    StringFormatter :=
  let custom_rows :=
    ROW_SKELETON ("|   " ++ "|   ") "Part Number" item.part_number ++
    ROW_SKELETON ("|   " ++ "|   ") "Serial Number" item.serial_number
  { fmt with
    items := fmt.items ++
      ELEM_SKELETON item.className item.name (pyStr item.description)
        custom_rows }

/-- `StringFormatter.add_connection` (string_map.py lines 71-80): append
the connection block to the `connections` buffer, with the arrow looked up
in `CONNECTION_MAP` by `conn.type`.  The lookup is total because `type`
ranges over the four `ConnectorCategory` member names (a missing key would
be a Python `KeyError`; the `getD` default is unreachable). -/
def StringFormatter.add_connection (fmt : StringFormatter) (conn : DlabLink) :
    StringFormatter :=
  { fmt with
    connections := fmt.connections ++
      CONN_SKELETON conn.className conn.name conn.start_node_name
        conn.start_node_port ((CONNECTION_MAP.lookup conn.type).getD "KeyError")
        conn.end_node_name conn.end_node_port }

/-- `StringFormatter.export_as_string` (string_map.py lines 82-97): render
the environment block (`"Not required"` when the mapping is empty, else
one row per key in insertion order) and instantiate `DOC_SKELETON` from
the metadata and the two accumulated buffers.  Reads but never writes the
formatter state. -/
def StringFormatter.export_as_string (fmt : StringFormatter)
    (labname location : String) (env : List (String × String))
    (description : String) : String :=
  let env_str :=
    if env.isEmpty then "Not required"
    else env.foldl (fun acc kv => acc ++ ROW_SKELETON "|   " kv.1 kv.2) ""
  DOC_SKELETON labname location description env_str fmt.items fmt.connections

/-- `Dlab.__update_formatters` (default.py lines 225-230) specialized to
one text-tree formatter (the broadcast over the formatter registry applies
the same fold to each formatter's own state independently): stream
`self.items + self.connections` in order; every entity goes through
`add_item`, and links additionally through `add_connection`. -/
def update_formatters_strf (st : DlabState) (fmt : StringFormatter) :
    StringFormatter :=
  (st.nodes.map DlabEntity.instr ++ st.links.map DlabEntity.link).foldl
    (fun f ent =>
      match ent with
      | .instr _ => f.add_item ent
      | .link l => (f.add_item ent).add_connection l)
    fmt

/-- The full definition-to-text pipeline: resolve the definition (fresh
`Dlab` construction), stream the resolved entities into a fresh
`StringFormatter`, then export with the definition's metadata as
`Dlab.to_string` does (default.py lines 235-238). -/
def strfPipeline (classes : ClassRegistry) (lab : LabDef) :
    Except String String :=
  match dlabResolve classes lab with
  | .error e => .error e
  | .ok st =>
    .ok ((update_formatters_strf st {}).export_as_string lab.name
      lab.location lab.environment lab.description)


/-! ### Helper lemmas on the resolution pipeline -/

/-- The cardinality check of `__check_connections` succeeds exactly when
the `(start, end, start_port, end_port)` tuples are pairwise distinct. -/
lemma check_connections_iff (connections : List ConnEntry) :
    check_connections connections = true ↔
      (connections.map connTuple).Nodup := by
  unfold check_connections
  rw [beq_iff_eq]
  constructor
  · intro h
    have hsub : (connections.map connTuple).dedup.Sublist (connections.map connTuple) :=
      List.dedup_sublist _
    have heq : (connections.map connTuple).dedup = connections.map connTuple :=
      hsub.eq_of_length (by simpa [List.length_map] using h)
    rw [← heq]
    exact List.nodup_dedup _
  · intro h
    rw [List.dedup_eq_self.mpr h, List.length_map]

lemma get_connection_eq_none_iff (nm : String) (cs : List ConnEntry) :
    get_connection nm cs = none ↔ ∀ e ∈ cs, e.item_connector ≠ nm := by
  induction cs with
  | nil => simp [get_connection]
  | cons x xs ih =>
    by_cases hx : x.item_connector == nm
    · simp [get_connection, hx, beq_iff_eq.mp hx]
    · cases hrec : get_connection nm xs with
      | none =>
        simp only [get_connection, hx, Bool.false_eq_true, if_false, hrec]
        simp only [List.mem_cons]
        constructor
        · intro _ e he
          rcases he with he | he
          · subst he; exact fun hc => hx (beq_iff_eq.mpr hc)
          · exact (ih.mp hrec) e he
        · intro _; trivial
      | some pr =>
        simp only [get_connection, hx, Bool.false_eq_true, if_false, hrec]
        constructor
        · intro hc; cases hc
        · intro hall
          exfalso
          have : get_connection nm xs = none :=
            ih.mpr (fun e he => hall e (List.mem_cons_of_mem _ he))
          rw [this] at hrec; cases hrec

/-- What a successful `__get_connection` pop returns: the first entry whose
binder matches, removed in place. -/
lemma get_connection_eq_some (nm : String) (cs : List ConnEntry)
    (e : ConnEntry) (rest : List ConnEntry)
    (h : get_connection nm cs = some (e, rest)) :
    e.item_connector = nm ∧
      ∃ pre post, cs = pre ++ e :: post ∧ rest = pre ++ post ∧
        ∀ x ∈ pre, x.item_connector ≠ nm := by
  induction cs generalizing rest with
  | nil => simp [get_connection] at h
  | cons x xs ih =>
    by_cases hx : x.item_connector == nm
    · simp only [get_connection, hx, if_true, Option.some.injEq, Prod.mk.injEq] at h
      obtain ⟨he, hrest⟩ := h
      subst he; subst hrest
      exact ⟨beq_iff_eq.mp hx, [], xs, rfl, rfl, by simp⟩
    · cases hrec : get_connection nm xs with
      | none => simp [get_connection, hx, hrec] at h
      | some pr =>
        obtain ⟨r, rs⟩ := pr
        simp only [get_connection, hx, Bool.false_eq_true, if_false, hrec,
          Option.some.injEq, Prod.mk.injEq] at h
        obtain ⟨he, hrest⟩ := h
        subst he; subst hrest
        obtain ⟨h1, pre, post, hcs, hrs, hpre⟩ := ih rs hrec
        refine ⟨h1, x :: pre, post, by simp [hcs], by simp [hrs], ?_⟩
        intro y hy
        rcases List.mem_cons.mp hy with hy | hy
        · subst hy; exact fun hc => hx (beq_iff_eq.mpr hc)
        · exact hpre y hy

lemma get_connection_mem {nm : String} {cs : List ConnEntry}
    {e : ConnEntry} {rest : List ConnEntry}
    (h : get_connection nm cs = some (e, rest)) :
    e ∈ cs ∧ ∀ x ∈ rest, x ∈ cs := by
  obtain ⟨-, pre, post, hcs, hrest, -⟩ := get_connection_eq_some nm cs e rest h
  subst hcs; subst hrest
  constructor
  · exact List.mem_append.mpr (Or.inr (List.mem_cons_self _ _))
  · intro x hx
    rcases List.mem_append.mp hx with hx | hx
    · exact List.mem_append.mpr (Or.inl hx)
    · exact List.mem_append.mpr (Or.inr (List.mem_cons_of_mem _ hx))

lemma get_connection_map_binder {nm : String} {cs : List ConnEntry}
    {e : ConnEntry} {rest : List ConnEntry}
    (h : get_connection nm cs = some (e, rest)) :
    rest.map ConnEntry.item_connector =
      (cs.map ConnEntry.item_connector).erase nm := by
  obtain ⟨hbind, pre, post, hcs, hrest, hpre⟩ :=
    get_connection_eq_some nm cs e rest h
  subst hcs; subst hrest
  have hnotin : nm ∉ pre.map ConnEntry.item_connector := by
    intro hmem
    obtain ⟨x, hx, hxe⟩ := List.mem_map.mp hmem
    exact hpre x hx hxe
  rw [List.map_append, List.map_append, List.map_cons,
    List.erase_append_right _ hnotin, hbind, List.erase_cons_head]

lemma get_connection_isSome_of_mem {nm : String} {cs : List ConnEntry}
    (h : nm ∈ cs.map ConnEntry.item_connector) :
    ∃ e rest, get_connection nm cs = some (e, rest) := by
  cases hgc : get_connection nm cs with
  | none =>
    exfalso
    obtain ⟨e, he, hbind⟩ := List.mem_map.mp h
    exact (get_connection_eq_none_iff nm cs).mp hgc e he hbind
  | some pr =>
    exact ⟨pr.1, pr.2, rfl⟩


/-- Successful resolution of the declared items when every class name is
registered as a constructible (non-abstract) class and the link-capable
item names are a permutation of the connection binders: the nodes are
exactly the node-classed items in declaration order, and one link is
built per link-classed item. -/
lemma resolve_items_ok_of_perm (classes : ClassRegistry) :
    ∀ (items : List RawItem) (conns : List ConnEntry),
    (∀ it ∈ items, constructible classes it.className = true) →
    (linkNames classes items).Perm (conns.map ConnEntry.item_connector) →
    ∃ ns ls cs, resolve_items classes items conns = .ok (ns, ls, cs) ∧
      ns = nodesOf classes items ∧
      ls.length = (linkNames classes items).length ∧
      ∀ l ∈ ls, ∃ e ∈ conns,
        l.start_node_name = e.start ∧ l.end_node_name = e.end_ := by
  intro items
  induction items with
  | nil =>
    intro conns _ _
    exact ⟨[], [], conns, rfl, rfl, rfl, by simp⟩
  | cons it rest ih =>
    intro conns hcls hperm
    have hit : constructible classes it.className = true :=
      hcls it (List.mem_cons_self _ _)
    cases hl : List.lookup it.className classes with
    | none => simp [constructible, hl] at hit
    | some cls =>
      have hab : cls.abstract = false := by
        simp [constructible, hl] at hit
        exact hit
      cases hk : cls.kind with
      | node =>
        have hln : linkNames classes (it :: rest) = linkNames classes rest := by
          simp [linkNames, hl, hk]
        have hnd : nodesOf classes (it :: rest) =
            mkInstrument it :: nodesOf classes rest := by
          simp [nodesOf, hl, hk]
        rw [hln] at hperm
        obtain ⟨ns, ls, cs, hres, hns, hlen, horig⟩ :=
          ih conns (fun x hx => hcls x (List.mem_cons_of_mem _ hx)) hperm
        refine ⟨mkInstrument it :: ns, ls, cs, ?_, ?_, ?_, horig⟩
        · simp only [resolve_items, hl, hk, hab, Bool.false_eq_true,
            if_false, hres]
        · rw [hnd, hns]
        · rw [hln]; exact hlen
      | link =>
        have hln : linkNames classes (it :: rest) =
            it.fields.name :: linkNames classes rest := by
          simp [linkNames, hl, hk]
        have hnd : nodesOf classes (it :: rest) = nodesOf classes rest := by
          simp [nodesOf, hl, hk]
        rw [hln] at hperm
        have hmem : it.fields.name ∈ conns.map ConnEntry.item_connector :=
          hperm.subset (List.mem_cons_self _ _)
        obtain ⟨e, conns2, hgc⟩ := get_connection_isSome_of_mem hmem
        have hperm2 : (linkNames classes rest).Perm
            (conns2.map ConnEntry.item_connector) := by
          have h1 := hperm.erase it.fields.name
          rw [List.erase_cons_head] at h1
          rw [get_connection_map_binder hgc]
          exact h1
        obtain ⟨ns, ls, cs, hres, hns, hlen, horig⟩ :=
          ih conns2 (fun x hx => hcls x (List.mem_cons_of_mem _ hx)) hperm2
        refine ⟨ns, mkLink it e :: ls, cs, ?_, ?_, ?_, ?_⟩
        · simp only [resolve_items, hl, hk, hgc, hab, Bool.false_eq_true,
            if_false, hres]
        · rw [hnd]; exact hns
        · rw [hln]; simp [hlen]
        · intro l hlmem
          rcases List.mem_cons.mp hlmem with h | h
          · subst h
            exact ⟨e, (get_connection_mem hgc).1, rfl, rfl⟩
          · obtain ⟨e2, he2, hst, hen⟩ := horig l h
            exact ⟨e2, (get_connection_mem hgc).2 e2 he2, hst, hen⟩

/-- Every link built by `__resolve_items` comes out of the `DlabLink`
constructor, which never assigns the `__emitter` / `__receiver`
attributes. -/
lemma resolve_items_emitter (classes : ClassRegistry) :
    ∀ (items : List RawItem) (conns : List ConnEntry) ns ls cs,
    resolve_items classes items conns = .ok (ns, ls, cs) →
    ∀ l ∈ ls, l.emitter = none ∧ l.receiver = none := by
  intro items
  induction items with
  | nil =>
    intro conns ns ls cs h l hl
    simp only [resolve_items, Except.ok.injEq, Prod.mk.injEq] at h
    obtain ⟨-, h2, -⟩ := h
    rw [← h2] at hl
    cases hl
  | cons it rest ih =>
    intro conns ns ls cs h l hl
    cases hcl : List.lookup it.className classes with
    | none =>
      simp only [resolve_items, hcl] at h
      exact Except.noConfusion h
    | some cls =>
      cases hk : cls.kind with
      | node =>
        cases hab : cls.abstract with
        | true =>
          simp only [resolve_items, hcl, hk, hab, eq_self_iff_true,
            if_true] at h
          exact Except.noConfusion h
        | false =>
          cases hr : resolve_items classes rest conns with
          | error e =>
            simp only [resolve_items, hcl, hk, hab, Bool.false_eq_true,
              if_false, hr] at h
            exact Except.noConfusion h
          | ok tr =>
            obtain ⟨ns2, ls2, cs2⟩ := tr
            simp only [resolve_items, hcl, hk, hab, Bool.false_eq_true,
              if_false, hr, Except.ok.injEq, Prod.mk.injEq] at h
            obtain ⟨-, h2, -⟩ := h
            rw [← h2] at hl
            exact ih conns ns2 ls2 cs2 hr l hl
      | link =>
        cases hgc : get_connection it.fields.name conns with
        | none =>
          simp only [resolve_items, hcl, hk, hgc] at h
          exact Except.noConfusion h
        | some pr =>
          obtain ⟨e, conns2⟩ := pr
          cases hab : cls.abstract with
          | true =>
            simp only [resolve_items, hcl, hk, hgc, hab, eq_self_iff_true,
              if_true] at h
            exact Except.noConfusion h
          | false =>
            cases hr : resolve_items classes rest conns2 with
            | error e2 =>
              simp only [resolve_items, hcl, hk, hgc, hab,
                Bool.false_eq_true, if_false, hr] at h
              exact Except.noConfusion h
            | ok tr =>
              obtain ⟨ns2, ls2, cs2⟩ := tr
              simp only [resolve_items, hcl, hk, hgc, hab,
                Bool.false_eq_true, if_false, hr, Except.ok.injEq,
                Prod.mk.injEq] at h
              obtain ⟨-, h2, -⟩ := h
              rw [← h2] at hl
              rcases List.mem_cons.mp hl with hh | hh
              · subst hh; exact ⟨rfl, rfl⟩
              · exact ih conns2 ns2 ls2 cs2 hr l hh
lemma update_node_topolgy_preserve (nodes : List DlabInstrument) :
    ∀ (ls ls2 : List DlabLink), update_node_topolgy nodes ls = .ok ls2 →
    ∀ l2 ∈ ls2, ∃ l ∈ ls, l2.emitter = l.emitter ∧ l2.receiver = l.receiver := by
  intro ls
  induction ls with
  | nil =>
    intro ls2 h l2 hl2
    simp only [update_node_topolgy, Except.ok.injEq] at h
    rw [← h] at hl2
    cases hl2
  | cons l ls ih =>
    intro ls2 h l2 hl2
    cases hs : get_node nodes l.start_node_name with
    | error e =>
      simp only [update_node_topolgy, hs] at h
      exact Except.noConfusion h
    | ok s =>
      cases he : get_node nodes l.end_node_name with
      | error e =>
        simp only [update_node_topolgy, hs, he] at h
        exact Except.noConfusion h
      | ok t =>
        cases hr : update_node_topolgy nodes ls with
        | error e =>
          simp only [update_node_topolgy, hs, he, hr] at h
          exact Except.noConfusion h
        | ok tail =>
          simp only [update_node_topolgy, hs, he, hr, Except.ok.injEq] at h
          rw [← h] at hl2
          rcases List.mem_cons.mp hl2 with hh | hh
          · subst hh
            exact ⟨l, List.mem_cons_self _ _, rfl, rfl⟩
          · obtain ⟨l0, hl0, hp⟩ := ih tail hr l2 hh
            exact ⟨l0, List.mem_cons_of_mem _ hl0, hp⟩

/-- The linking pass succeeds, preserving the number of links, when every
link's declared endpoint names match some resolved node. -/
lemma update_node_topolgy_ok (nodes : List DlabInstrument) :
    ∀ (ls : List DlabLink),
    (∀ l ∈ ls, (∃ nd ∈ nodes, nd.name = l.start_node_name) ∧
               (∃ nd ∈ nodes, nd.name = l.end_node_name)) →
    ∃ ls2, update_node_topolgy nodes ls = .ok ls2 ∧ ls2.length = ls.length := by
  intro ls
  induction ls with
  | nil => intro _; exact ⟨[], rfl, rfl⟩
  | cons l ls ih =>
    intro hnames
    obtain ⟨⟨nd1, hnd1, hname1⟩, ⟨nd2, hnd2, hname2⟩⟩ :=
      hnames l (List.mem_cons_self _ _)
    have hs : (nodes.find? fun item => item.name == l.start_node_name).isSome :=
      List.find?_isSome.mpr ⟨nd1, hnd1, beq_iff_eq.mpr hname1⟩
    have he : (nodes.find? fun item => item.name == l.end_node_name).isSome :=
      List.find?_isSome.mpr ⟨nd2, hnd2, beq_iff_eq.mpr hname2⟩
    obtain ⟨s, hsv⟩ := Option.isSome_iff_exists.mp hs
    obtain ⟨t, htv⟩ := Option.isSome_iff_exists.mp he
    obtain ⟨tail, htail, hlen⟩ :=
      ih (fun x hx => hnames x (List.mem_cons_of_mem _ hx))
    refine ⟨{ l with start_node := some s, end_node := some t } :: tail, ?_, by simp [hlen]⟩
    simp only [update_node_topolgy, get_node, hsv, htv, htail]

/-- If some link-classed item’s name matches no binder in the connection
list (and every declared class is registered and constructible, so no
earlier class error or constructor TypeError fires), `__resolve_items`
raises the missing-connection error, naming one of the link-classed
items. -/
lemma resolve_items_missing (classes : ClassRegistry) :
    ∀ (items : List RawItem) (conns : List ConnEntry),
    (∀ it ∈ items, constructible classes it.className = true) →
    (∃ it ∈ items, ∃ cls, List.lookup it.className classes = some cls ∧
       cls.kind = .link ∧
       it.fields.name ∉ conns.map ConnEntry.item_connector) →
    ∃ nm, nm ∈ linkNames classes items ∧
      resolve_items classes items conns =
        .error ("Error: connection definition is missing for <" ++ nm ++ ">") := by
  intro items
  induction items with
  | nil =>
    intro conns _ hex
    obtain ⟨it, hit, -⟩ := hex
    cases hit
  | cons it rest ih =>
    intro conns hcls hex
    have hit : constructible classes it.className = true :=
      hcls it (List.mem_cons_self _ _)
    cases hl : List.lookup it.className classes with
    | none => simp [constructible, hl] at hit
    | some cls =>
      have hab : cls.abstract = false := by
        simp [constructible, hl] at hit
        exact hit
      cases hk : cls.kind with
      | node =>
        obtain ⟨w, hw, cls2, hwl, hwk, hwn⟩ := hex
        rcases List.mem_cons.mp hw with hEq | hw2
        · exfalso
          subst hEq
          rw [hl] at hwl
          obtain rfl : cls = cls2 := Option.some.inj hwl
          rw [hk] at hwk
          exact DlabClassKind.noConfusion hwk
        · obtain ⟨nm, hnm, herr⟩ :=
            ih conns (fun x hx => hcls x (List.mem_cons_of_mem _ hx))
              ⟨w, hw2, cls2, hwl, hwk, hwn⟩
          refine ⟨nm, ?_, ?_⟩
          · have hln : linkNames classes (it :: rest) =
                linkNames classes rest := by simp [linkNames, hl, hk]
            rw [hln]; exact hnm
          · simp only [resolve_items, hl, hk, hab, Bool.false_eq_true,
              if_false, herr]
      | link =>
        have hln : linkNames classes (it :: rest) =
            it.fields.name :: linkNames classes rest := by
          simp [linkNames, hl, hk]
        cases hgc : get_connection it.fields.name conns with
        | none =>
          refine ⟨it.fields.name, ?_, ?_⟩
          · rw [hln]; exact List.mem_cons_self _ _
          · simp only [resolve_items, hl, hk, hgc]
        | some pr =>
          obtain ⟨e, conns2⟩ := pr
          obtain ⟨w, hw, cls2, hwl, hwk, hwn⟩ := hex
          have hwrest : w ∈ rest := by
            rcases List.mem_cons.mp hw with hEq | h2
            · exfalso
              subst hEq
              have hmem : w.fields.name ∈ conns.map ConnEntry.item_connector :=
                List.mem_map.mpr ⟨e, (get_connection_mem hgc).1,
                  (get_connection_eq_some _ _ _ _ hgc).1⟩
              exact hwn hmem
            · exact h2
          have hwn2 : w.fields.name ∉ conns2.map ConnEntry.item_connector := by
            intro hmem
            obtain ⟨x, hx, hxe⟩ := List.mem_map.mp hmem
            exact hwn (List.mem_map.mpr ⟨x, (get_connection_mem hgc).2 x hx, hxe⟩)
          obtain ⟨nm, hnm, herr⟩ :=
            ih conns2 (fun x hx => hcls x (List.mem_cons_of_mem _ hx))
              ⟨w, hwrest, cls2, hwl, hwk, hwn2⟩
          refine ⟨nm, ?_, ?_⟩
          · rw [hln]; exact List.mem_cons_of_mem _ hnm
          · simp only [resolve_items, hl, hk, hgc, hab, Bool.false_eq_true,
              if_false, herr]
/-! ### Concrete definitions used by witnesses and counterexamples -/

/-- A minimal instrument declaration (`GenericInstrument` is registered as
a node-capable class). -/
def itemS1 : RawItem :=
  { className := "GenericInstrument",
    fields := { name := "s1", pn := "P1", sn := "S1" } }

def itemS2 : RawItem :=
  { className := "GenericInstrument",
    fields := { name := "s2", pn := "P2", sn := "S2" } }

/-- A cable declaration (`Cable` is registered as a link-capable class). -/
def cableC1 : RawItem :=
  { className := "Cable",
    fields := { name := "c1", pn := "P3", sn := "S3" } }

/-- A connection entry binding the cable `c1` between `s1.out` and
`s2.in`. -/
def entC1 : ConnEntry :=
  { item_connector := "c1", start := "s1", end_ := "s2",
    start_port := "out", end_port := "in", category := .DATAW }

/-- A connection entry whose binder `c9` names no declared item. -/
def entC9 : ConnEntry :=
  { item_connector := "c9", start := "s1", end_ := "s1",
    start_port := "a", end_port := "b", category := .POWER }

/-- A fully resolvable definition: two instruments and one cable bound by
one connection entry. -/
def labResolvable : LabDef :=
  { name := "lab", description := "desc", environment := [("k", "v")],
    location := "loc", items := [itemS1, itemS2, cableC1],
    connections := [entC1] }

/-- A definition whose single connection entry is bound to no declared
link item: one instrument, one entry with binder `c9`. -/
def labDangling : LabDef :=
  { name := "lab", description := "desc", environment := [],
    location := "loc", items := [itemS1], connections := [entC9] }

/-- A definition with a declared cable `c1` but no connection entry whose
binder matches it. -/
def labUnmatchedCable : LabDef :=
  { name := "lab", description := "desc", environment := [],
    location := "loc", items := [itemS1, cableC1], connections := [entC9] }

/-- Two entries with the identical `(start, end, start_port, end_port)`
tuple but different binders. -/
def labDupTuple : LabDef :=
  { name := "lab", description := "desc", environment := [],
    location := "loc", items := [itemS1, itemS2, cableC1],
    connections :=
      [entC1, { entC1 with item_connector := "c2" }] }

/-- Two entries with the same binder `c1` and different tuples. -/
def labDupBinder : LabDef :=
  { name := "lab", description := "desc", environment := [],
    location := "loc", items := [itemS1, cableC1],
    connections :=
      [{ item_connector := "c1", start := "s1", end_ := "s1",
         start_port := "pA", end_port := "qA", category := .POWER },
       { item_connector := "c1", start := "s1", end_ := "s1",
         start_port := "pB", end_port := "qB", category := .POWER }] }

/-- An empty but complete definition (no items, no connections). -/
def labEmpty : LabDef :=
  { name := "l", description := "d", environment := [], location := "x",
    items := [], connections := [] }

/-- The resolved node entities of `labResolvable`. -/
def nodeS1 : DlabInstrument :=
  { className := "GenericInstrument", name := "s1", sn := "S1", pn := "P1" }

def nodeS2 : DlabInstrument :=
  { className := "GenericInstrument", name := "s2", sn := "S2", pn := "P2" }

/-- The resolved link entity of `labResolvable` after the linking pass. -/
def linkC1resolved : DlabLink :=
  { className := "Cable", name := "c1", start_node_name := "s1",
    end_node_name := "s2", start_node_port := "out", end_node_port := "in",
    category := .DATAW, manual_only := false, autoconnect := true,
    start_node := some nodeS1, end_node := some nodeS2, emitter := none,
    receiver := none, sn := "S3", pn := "P3" }

/-- The resolved topology of `labResolvable`. -/
def stResolvable : DlabState :=
  { nodes := [nodeS1, nodeS2], links := [linkC1resolved] }

/-! ### Claim theorems -/

/-- C1 counterexample: a definition that passes validation (all required
fields present and well-typed by construction) with exactly one connection
entry — hence N = 1 pairwise-distinct tuples — whose binder `c9` is bound
by no declared link item: resolution succeeds, but the `Connections`
sequence has 0 resolved links, not N = 1; the unconsumed entry is silently
ignored. -/
theorem C1_counterexample :
    (dlabResolve defaultClasses labDangling).map (fun st => st.links.length) =
      Except.ok 0 ∧
    labDangling.connections.length = 1 ∧
    (labDangling.connections.map connTuple).Nodup := by
  exact ⟨rfl, rfl, by decide⟩

/-- C1 (amended): for every definition with N pairwise-distinct
`(start, end, start_port, end_port)` tuples, in which every item's class
name is registered as a constructible (non-abstract) class, the names of
the link-capable items are a permutation of the connection entries'
`item_connector` binders, and every entry's `start`/`end` names a declared
node item, resolution succeeds and the `Connections` sequence contains
exactly N resolved links. -/
theorem C1_resolved_link_count (classes : ClassRegistry) (lab : LabDef)
    (hdup : (lab.connections.map connTuple).Nodup)
    (hcls : ∀ it ∈ lab.items, constructible classes it.className = true)
    (hbind : (linkNames classes lab.items).Perm
      (lab.connections.map ConnEntry.item_connector))
    (hnodes : ∀ e ∈ lab.connections,
      (∃ nd ∈ nodesOf classes lab.items, nd.name = e.start) ∧
      (∃ nd ∈ nodesOf classes lab.items, nd.name = e.end_)) :
    (dlabResolve classes lab).map (fun st => st.links.length) =
      Except.ok lab.connections.length := by
  obtain ⟨ns, ls, cs, hres, hns, hlen, horig⟩ :=
    resolve_items_ok_of_perm classes lab.items lab.connections hcls hbind
  have hnames : ∀ l ∈ ls,
      (∃ nd ∈ ns, nd.name = l.start_node_name) ∧
      (∃ nd ∈ ns, nd.name = l.end_node_name) := by
    intro l hl
    obtain ⟨e, he, hst, hen⟩ := horig l hl
    obtain ⟨h1, h2⟩ := hnodes e he
    subst hns
    constructor
    · rw [hst]; exact h1
    · rw [hen]; exact h2
  obtain ⟨ls2, hunt, hlen2⟩ := update_node_topolgy_ok ns ls hnames
  have hcheck : check_connections lab.connections = true :=
    (check_connections_iff _).mpr hdup
  have hplen : (linkNames classes lab.items).length =
      lab.connections.length := by
    simpa using hbind.length_eq
  simp only [dlabResolve, hcheck, if_true, hres, hunt, Except.map]
  rw [hlen2, hlen, hplen]

/-- C1 witness: on `labResolvable` (one distinct tuple, all classes
registered, binder matched, endpoints declared) resolution succeeds with
exactly one resolved link. -/
theorem C1_witness :
    (dlabResolve defaultClasses labResolvable).map (fun st => st.links.length) =
      Except.ok labResolvable.connections.length :=
  C1_resolved_link_count defaultClasses labResolvable (by decide) (by decide)
    (by decide) (by decide)

/-- C2: a definition whose connections list contains a duplicated
`(start, end, start_port, end_port)` tuple is rejected by
`__check_connections` with the duplicate-connection error, whatever the
class registry holds — the check runs before any class name is resolved
and before any entity is constructed, and the error carries no partial
state. -/
theorem C2_duplicate_tuple_error (classes : ClassRegistry) (lab : LabDef)
    (hdup : ¬ (lab.connections.map connTuple).Nodup) :
    dlabResolve classes lab = Except.error
      "Error: multiple definitions found for the same connection. Check the connection ports and items." := by
  have hc : check_connections lab.connections = false := by
    cases hb : check_connections lab.connections with
    | false => rfl
    | true => exact absurd ((check_connections_iff _).mp hb) hdup
  simp only [dlabResolve, hc, Bool.false_eq_true, if_false]

/-- C2 witness: `labDupTuple` has two entries with the identical tuple but
different `item_connector` binders (`c1` versus `c2`); resolution fails
with the duplicate-connection error. -/
theorem C2_witness :
    dlabResolve defaultClasses labDupTuple = Except.error
      "Error: multiple definitions found for the same connection. Check the connection ports and items." ∧
    (labDupTuple.connections.map ConnEntry.item_connector).Nodup :=
  ⟨C2_duplicate_tuple_error defaultClasses labDupTuple (by decide), by decide⟩

/-- C3 counterexample: `labDangling` contains a connection entry whose
`item_connector` value `c9` names no declared item, yet resolution
succeeds (no `ResolutionError` at all): the entry is never consumed. The
missing-connection error fires in the converse situation, for a declared
link item with no matching entry. -/
theorem C3_counterexample :
    (∀ it ∈ labDangling.items, it.fields.name ≠ "c9") ∧
    "c9" ∈ labDangling.connections.map ConnEntry.item_connector ∧
    dlabResolve defaultClasses labDangling =
      Except.ok { nodes := [mkInstrument itemS1], links := [] } := by
  refine ⟨by decide, by decide, rfl⟩

/-- C3 (amended): if a definition (with pairwise-distinct connection
tuples, and all item classes registered as constructible non-abstract
classes) declares a link-capable item whose name matches no connection
entry's `item_connector` binder, resolution fails with `ResolutionError`
"connection definition is missing for <name>" naming one of the declared
link-capable items. -/
theorem C3_unmatched_link_item_error (classes : ClassRegistry) (lab : LabDef)
    (hdup : (lab.connections.map connTuple).Nodup)
    (hcls : ∀ it ∈ lab.items, constructible classes it.className = true)
    (hex : ∃ it ∈ lab.items, ∃ cls,
      List.lookup it.className classes = some cls ∧ cls.kind = .link ∧
      it.fields.name ∉ lab.connections.map ConnEntry.item_connector) :
    ∃ nm, nm ∈ linkNames classes lab.items ∧
      dlabResolve classes lab = Except.error
        ("Error: connection definition is missing for <" ++ nm ++ ">") := by
  obtain ⟨nm, hnm, herr⟩ :=
    resolve_items_missing classes lab.items lab.connections hcls hex
  have hcheck : check_connections lab.connections = true :=
    (check_connections_iff _).mpr hdup
  exact ⟨nm, hnm, by simp only [dlabResolve, hcheck, if_true, herr]⟩

/-- C3 witness: `labUnmatchedCable` declares the cable `c1` while its only
connection entry is bound to `c9`; resolution fails with the
missing-connection error naming `c1`. -/
theorem C3_witness :
    dlabResolve defaultClasses labUnmatchedCable = Except.error
      "Error: connection definition is missing for <c1>" := by
  obtain ⟨nm, hnm, herr⟩ :=
    C3_unmatched_link_item_error defaultClasses labUnmatchedCable (by decide)
      (by decide)
      ⟨cableC1, by decide, { kind := .link, abstract := false }, by decide,
        rfl, by decide⟩
  have hl : linkNames defaultClasses labUnmatchedCable.items = ["c1"] := rfl
  rw [hl] at hnm
  have : nm = "c1" := by simpa using hnm
  rw [this] at herr
  exact herr

/-- C4 counterexample: `uid` is not a function of exactly the pair
`(name, serial_number)` — it hashes the plain concatenation, so the
distinct pairs ("xy", "z") and ("x", "yz") (different name, different
serial number) produce the identical uid. -/
theorem C4_counterexample :
    ({ className := "GenericInstrument", name := "xy", sn := "z",
       pn := "PN-1" } : DlabInstrument).name ≠
      ({ className := "GenericInstrument", name := "x", sn := "yz",
         pn := "PN-1" } : DlabInstrument).name ∧
    ({ className := "GenericInstrument", name := "xy", sn := "z",
       pn := "PN-1" } : DlabInstrument).sn ≠
      ({ className := "GenericInstrument", name := "x", sn := "yz",
         pn := "PN-1" } : DlabInstrument).sn ∧
    ({ className := "GenericInstrument", name := "xy", sn := "z",
       pn := "PN-1" } : DlabInstrument).uid =
      ({ className := "GenericInstrument", name := "x", sn := "yz",
         pn := "PN-1" } : DlabInstrument).uid := by
  refine ⟨by decide, by decide, ?_⟩
  show hash_string ("xy" ++ "z") = hash_string ("x" ++ "yz")
  exact congrArg hash_string (by decide)

/-- C4 (amended): `uid` is a pure function of the concatenation
`name ++ serial_number` (for instruments and connectors alike): computing
it on equal concatenations — in particular twice on equal
`(name, serial_number)` pairs, or after changing any other field (part
number, description, group, ports) — yields identical output; distinct
pairs with equal concatenations also collide. -/
theorem C4_uid_pure_in_name_sn :
    (∀ i j : DlabInstrument, i.name ++ i.sn = j.name ++ j.sn →
      i.uid = j.uid) ∧
    (∀ l m : DlabLink, l.name ++ l.sn = m.name ++ m.sn → l.uid = m.uid) := by
  constructor
  · intro i j h
    unfold DlabInstrument.uid
    rw [h]
  · intro l m h
    unfold DlabLink.uid
    rw [h]

/-- C4 witness: two instruments with the same name and serial number but
different part numbers, descriptions and groups have the same uid. -/
theorem C4_witness :
    ({ className := "GenericInstrument", name := "n", sn := "s", pn := "P1",
       description := none, group := none } : DlabInstrument).uid =
    ({ className := "GenericInstrument", name := "n", sn := "s", pn := "P2",
       description := some "d", group := some "g" } : DlabInstrument).uid :=
  C4_uid_pure_in_name_sn.1 _ _ rfl

/-- C5 counterexample: `labDupBinder` has two connection entries with the
identical binder `c1` (and distinct tuples) for its single cable item;
resolution does not fail on the duplicate matches — it consumes the first
matching entry (port `pA`) and silently ignores the second. -/
theorem C5_counterexample :
    (labDupBinder.connections.filter
      (fun e => e.item_connector == "c1")).length = 2 ∧
    (dlabResolve defaultClasses labDupBinder).map
      (fun st => (st.links.length, st.links.map DlabLink.start_node_port)) =
      Except.ok (1, ["pA"]) := by
  exact ⟨by decide, rfl⟩

/-- C5 (amended): during item resolution a link-capable item is matched
with the FIRST connection entry whose `item_connector` equals the item's
declared name; zero matching entries make resolution fail with the
missing-connection `ResolutionError`, while duplicate matching entries do
not fail — the first is consumed and the rest are left behind. -/
theorem C5_first_match_semantics :
    (∀ (nm : String) (cs : List ConnEntry),
      get_connection nm cs = none ↔ ∀ e ∈ cs, e.item_connector ≠ nm) ∧
    (∀ (nm : String) (cs : List ConnEntry) (e : ConnEntry)
      (rest : List ConnEntry), get_connection nm cs = some (e, rest) →
      e.item_connector = nm ∧ ∃ pre post, cs = pre ++ e :: post ∧
        rest = pre ++ post ∧ ∀ x ∈ pre, x.item_connector ≠ nm) ∧
    (∀ (classes : ClassRegistry) (cls : DlabClass) (it : RawItem)
      (restItems : List RawItem) (conns : List ConnEntry),
      List.lookup it.className classes = some cls → cls.kind = .link →
      (∀ e ∈ conns, e.item_connector ≠ it.fields.name) →
      resolve_items classes (it :: restItems) conns = Except.error
        ("Error: connection definition is missing for <" ++
          it.fields.name ++ ">")) := by
  refine ⟨get_connection_eq_none_iff, ?_, ?_⟩
  · intro nm cs e rest h
    exact get_connection_eq_some nm cs e rest h
  · intro classes cls it restItems conns hl hk hnone
    have hgc : get_connection it.fields.name conns = none :=
      (get_connection_eq_none_iff _ _).mpr hnone
    simp only [resolve_items, hl, hk, hgc]

/-- C5 witness: the cable `c1` with a connection list holding only the
`c9`-bound entry has zero matching entries, and `__resolve_items` raises
the missing-connection error for it. -/
theorem C5_witness :
    resolve_items defaultClasses [cableC1] [entC9] = Except.error
      "Error: connection definition is missing for <c1>" :=
  C5_first_match_semantics.2.2 defaultClasses
    { kind := .link, abstract := false } cableC1 [] [entC9]
    (by decide) rfl (by decide)

/-- A raw definition carrying the five keys the schema requires —
`name`, `description`, `environment`, `items`, `connections` — and no
`location` key. -/
def rawMissingLocation : RawLab :=
  { name := some "lab", description := some "desc",
    environment := some [], location := none, items := some [],
    connections := some [] }

/-- C6: the schema in validator.py has no entry for `location`, although
`Dlab.__init__` unconditionally reads `tmp_lab["location"]` and the spec
lists `location` among the required top-level keys: a definition missing
only `location` passes validation (first conjunct), while a really
required key — e.g. `connections` — is reported missing (third
conjunct). -/
theorem C6_location_not_required_by_schema :
    (validate_lab_definition rawMissingLocation).1 = true ∧
    rawMissingLocation.location = none ∧
    (validate_lab_definition { rawMissingLocation with connections := none }).1
      = false ∧
    (validate_lab_definition { rawMissingLocation with connections := none }).2
      = ["connections: required field"] := by
  exact ⟨rfl, rfl, rfl, rfl⟩

/-- The arrow glyph the specification assigns to each connector
category (used to compare `CONNECTION_MAP` against the spec's table). -/
def arrow_of_category : ConnectorCategory → String
  | .POWER => "---"
  | .DATAR => "<--"
  | .DATAW => "-->"
  | .DATAX => "<->"

/-- C7: `add_connection` appends exactly one connection block of the form
`start [start_port] <arrow> end [end_port]` (with the class name and link
name in the header), leaving the items buffer untouched, and the arrow is
determined solely by the connection's category with POWER ↦ `---`,
DATAR ↦ `<--`, DATAW ↦ `-->`, DATAX ↦ `<->`. -/
theorem C7_arrow_glyph_by_category (fmt : StringFormatter) (conn : DlabLink) :
    CONNECTION_MAP.lookup conn.type = some (arrow_of_category conn.category) ∧
    (fmt.add_connection conn).connections = fmt.connections ++
      CONN_SKELETON conn.className conn.name conn.start_node_name
        conn.start_node_port (arrow_of_category conn.category)
        conn.end_node_name conn.end_node_port ∧
    (fmt.add_connection conn).items = fmt.items := by
  have h1 : CONNECTION_MAP.lookup conn.type =
      some (arrow_of_category conn.category) := by
    cases hc : conn.category <;>
      simp [DlabLink.type, hc, CONNECTION_MAP, ConnectorCategory.name,
        arrow_of_category, List.lookup]
  refine ⟨h1, ?_, rfl⟩
  simp [StringFormatter.add_connection, h1]

/-- C8: the resolution-and-rendering pipeline is a deterministic function
of the definition: two runs of resolution plus text-tree rendering on the
same definition (each from a fresh resolver and a fresh formatter, with
the same class registry, i.e. no registry mutation in between) produce
byte-identical text-tree output. -/
theorem C8_pipeline_deterministic (classes : ClassRegistry) (lab : LabDef)
    (o1 o2 : String) (h1 : strfPipeline classes lab = Except.ok o1)
    (h2 : strfPipeline classes lab = Except.ok o2) : o1 = o2 := by
  rw [h1] at h2
  exact Except.ok.inj h2

set_option maxRecDepth 16384

/-- The text-tree output of the empty definition `labEmpty`. -/
def strfEmptyOut : String :=
  "\n~~~~~~~~~~~~~~~~~~~~~~~~~~~~~~~~~~~~~~~~~~~~\nLABORATORY: l\nLocation: x\nd\n~~~~~~~~~~~~~~~~~~~~~~~~~~~~~~~~~~~~~~~~~~~~\n|-- Required EnvironmentNot required\n~~~~~~~~~~~~~~~~~~~~~~~~~~~~~~~~~~~~~~~~~~~~\n|-- Laboratory Items\n~~~~~~~~~~~~~~~~~~~~~~~~~~~~~~~~~~~~~~~~~~~~\n|-- Laboratory Connections\n~~~~~~~~~~~~~~~~~~~~~~~~~~~~~~~~~~~~~~~~~~~~\n"

/-- C8 witness: on `labEmpty` the pipeline produces `strfEmptyOut`, and
two runs give that same output. -/
theorem C8_witness :
    strfPipeline defaultClasses labEmpty = Except.ok strfEmptyOut ∧
    strfEmptyOut = strfEmptyOut :=
  ⟨rfl, C8_pipeline_deterministic defaultClasses labEmpty strfEmptyOut
    strfEmptyOut rfl rfl⟩

/-- C9: for every link in a successfully resolved topology, `get_nodes`
raises `AttributeError`: the `__emitter`/`__receiver` attributes it reads
are never assigned by `DlabLink.__init__`, and the resolver's linking pass
assigns `start_node`/`end_node` directly without ever calling
`resolve_nodes`. -/
theorem C9_get_nodes_attribute_error (classes : ClassRegistry) (lab : LabDef)
    (st : DlabState) (h : dlabResolve classes lab = Except.ok st) :
    ∀ l ∈ st.links,
      l.get_nodes = Except.error "AttributeError: _DlabLink__emitter" := by
  intro l hl
  unfold dlabResolve at h
  split at h
  · cases hres : resolve_items classes lab.items lab.connections with
    | error e =>
      simp only [hres] at h
      exact Except.noConfusion h
    | ok tr =>
      obtain ⟨ns, ls, cs⟩ := tr
      simp only [hres] at h
      cases hunt : update_node_topolgy ns ls with
      | error e =>
        simp only [hunt] at h
        exact Except.noConfusion h
      | ok ls2 =>
        simp only [hunt, Except.ok.injEq] at h
        subst h
        obtain ⟨l0, hl0, hem, -⟩ :=
          update_node_topolgy_preserve ns ls ls2 hunt l hl
        obtain ⟨hem0, -⟩ :=
          resolve_items_emitter classes lab.items lab.connections ns ls cs
            hres l0 hl0
        rw [hem0] at hem
        simp [DlabLink.get_nodes, hem]
  · exact Except.noConfusion h

/-- C9 witness: `labResolvable` resolves to `stResolvable`, whose single
(fully linked) connection still raises `AttributeError` from
`get_nodes`. -/
theorem C9_witness :
    linkC1resolved.get_nodes =
      Except.error "AttributeError: _DlabLink__emitter" :=
  C9_get_nodes_attribute_error defaultClasses labResolvable stResolvable
    rfl linkC1resolved (by decide)

/-- An instrument named `ab` with serial number `c`. -/
def inst_ab_c : DlabInstrument :=
  { className := "GenericInstrument", name := "ab", sn := "c", pn := "1" }

/-- An instrument named `a` with serial number `bc` (and a different part
number). -/
def inst_a_bc : DlabInstrument :=
  { className := "GenericInstrument", name := "a", sn := "bc", pn := "2" }

/-- A connector named `ab` with serial number `c`. -/
def conn_ab_c : DlabLink :=
  { className := "Cable", name := "ab", start_node_name := "s",
    end_node_name := "t", start_node_port := "p", end_node_port := "q",
    category := .POWER, sn := "c", pn := "1" }

/-- A connector named `a` with serial number `bc`. -/
def conn_a_bc : DlabLink :=
  { className := "Cable", name := "a", start_node_name := "s",
    end_node_name := "t", start_node_port := "p", end_node_port := "q",
    category := .POWER, sn := "bc", pn := "2" }

/-- C10: `uid` does not injectively identify `(name, serial_number)`: it
hashes the plain concatenation, so the distinct pairs ("ab", "c") and
("a", "bc") — whose concatenations are both "abc" — give identical uids,
for instruments and connectors alike, and therefore identical map keys
and diagram-node identifiers. -/
theorem C10_uid_concatenation_collision :
    (inst_ab_c.name ≠ inst_a_bc.name ∧ inst_ab_c.sn ≠ inst_a_bc.sn ∧
      inst_ab_c.uid = inst_a_bc.uid) ∧
    (conn_ab_c.name ≠ conn_a_bc.name ∧ conn_ab_c.sn ≠ conn_a_bc.sn ∧
      conn_ab_c.uid = conn_a_bc.uid) := by
  refine ⟨⟨by decide, by decide, ?_⟩, ⟨by decide, by decide, ?_⟩⟩
  · show hash_string ("ab" ++ "c") = hash_string ("a" ++ "bc")
    exact congrArg hash_string (by decide)
  · show hash_string ("ab" ++ "c") = hash_string ("a" ++ "bc")
    exact congrArg hash_string (by decide)
